import Mathlib

set_option maxRecDepth 400000

/-!
Verification of the TickTrader Web API JavaScript client (`ttwebclient.mjs`
and its jQuery/browser variant). The development shallowly embeds the
request-signing pipeline (HMAC-SHA256 over a canonical concatenation,
standard Base64 output) and the endpoint URL construction, and proves the
spec's claims about them. 32-bit machine words are modelled as `Nat`
reduced modulo `2^32`; bytes are `Nat` values below 256.
-/

namespace TTWebClient

/-- Reduce a natural number to a 32-bit machine word. -/
def w32 (n : Nat) : Nat := n % 4294967296

/-- Right rotation of a 32-bit word by `n` bits. -/
def rotr32 (n x : Nat) : Nat := w32 ((x >>> n) ||| (x <<< (32 - n)))

/-- Bitwise complement of a 32-bit word. -/
def not32 (x : Nat) : Nat := x ^^^ 0xffffffff

/-- SHA-256 choice function. -/
def ch32 (x y z : Nat) : Nat := (x &&& y) ^^^ (not32 x &&& z)

/-- SHA-256 majority function. -/
def maj32 (x y z : Nat) : Nat := (x &&& y) ^^^ (x &&& z) ^^^ (y &&& z)

/-- SHA-256 big sigma 0. -/
def bsig0 (x : Nat) : Nat := rotr32 2 x ^^^ rotr32 13 x ^^^ rotr32 22 x

/-- SHA-256 big sigma 1. -/
def bsig1 (x : Nat) : Nat := rotr32 6 x ^^^ rotr32 11 x ^^^ rotr32 25 x

/-- SHA-256 small sigma 0. -/
def ssig0 (x : Nat) : Nat := rotr32 7 x ^^^ rotr32 18 x ^^^ (x >>> 3)

/-- SHA-256 small sigma 1. -/
def ssig1 (x : Nat) : Nat := rotr32 17 x ^^^ rotr32 19 x ^^^ (x >>> 10)

/-- The 64 SHA-256 round constants of FIPS 180-4 (decimal). -/
def sha256K : List Nat :=
  [1116352408, 1899447441, 3049323471, 3921009573, 961987163, 1508970993,
   2453635748, 2870763221, 3624381080, 310598401, 607225278, 1426881987,
   1925078388, 2162078206, 2614888103, 3248222580, 3835390401, 4022224774,
   264347078, 604807628, 770255983, 1249150122, 1555081692, 1996064986,
   2554220882, 2821834349, 2952996808, 3210313671, 3336571891, 3584528711,
   113926993, 338241895, 666307205, 773529912, 1294757372, 1396182291,
   1695183700, 1986661051, 2177026350, 2456956037, 2730485921, 2820302411,
   3259730800, 3345764771, 3516065817, 3600352804, 4094571909, 275423344,
   430227734, 506948616, 659060556, 883997877, 958139571, 1322822218,
   1537002063, 1747873779, 1955562222, 2024104815, 2227730452, 2361852424,
   2428436474, 2756734187, 3204031479, 3329325298]

/-- The SHA-256 initial hash state of FIPS 180-4 (decimal). -/
def sha256H0 : List Nat :=
  [1779033703, 3144134277, 1013904242, 2773480762,
   1359893119, 2600822924, 528734635, 1541459225]

/-- Big-endian byte serialization of a number into `k` bytes. -/
def toBytesBE : Nat → Nat → List Nat
  | 0, _ => []
  | k + 1, n => toBytesBE k (n >>> 8) ++ [n &&& 0xff]

/-- Big-endian word value of a list of bytes. -/
def wordBE (bs : List Nat) : Nat := bs.foldl (fun acc b => acc * 256 + b) 0

/-- Split a list into consecutive chunks of size `n` (fuel-driven). -/
def chunksGo (n : Nat) : Nat → List α → List (List α)
  | 0, _ => []
  | _, [] => []
  | fuel + 1, xs => xs.take n :: chunksGo n fuel (xs.drop n)

/-- Split a list into consecutive chunks of size `n`. -/
def chunksOf (n : Nat) (xs : List α) : List (List α) := chunksGo n xs.length xs

/-- SHA-256 message padding: append the `0x80` marker, zero bytes up to 56
mod 64, then the 64-bit big-endian bit length. -/
def sha256Pad (msg : List Nat) : List Nat :=
  msg ++ [0x80] ++ List.replicate ((119 - msg.length % 64) % 64) 0 ++ toBytesBE 8 (8 * msg.length)

/-- Expand a 64-byte block into the 64-entry SHA-256 message schedule. -/
def msgSchedule (block : List Nat) : List Nat :=
  let w16 := (chunksOf 4 block).map wordBE
  (List.range 48).foldl (fun w _ =>
    let t := w.length
    w ++ [w32 (ssig1 (w.getD (t - 2) 0) + w.getD (t - 7) 0 + ssig0 (w.getD (t - 15) 0) + w.getD (t - 16) 0)]) w16

/-- One SHA-256 compression round on the 8-word working state. -/
def sha256Round (st : List Nat) (k w : Nat) : List Nat :=
  match st with
  | [a, b, c, d, e, f, g, h] =>
    let t1 := w32 (h + bsig1 e + ch32 e f g + k + w)
    let t2 := w32 (bsig0 a + maj32 a b c)
    [w32 (t1 + t2), a, b, c, w32 (d + t1), e, f, g]
  | other => other

/-- Compress one 64-byte block into the hash state. -/
def sha256Block (h : List Nat) (block : List Nat) : List Nat :=
  let w := msgSchedule block
  let st := (sha256K.zip w).foldl (fun st kw => sha256Round st kw.1 kw.2) h
  (h.zip st).map (fun p => w32 (p.1 + p.2))

/-- SHA-256 of a byte list, as the 32-byte digest. -/
def sha256 (msg : List Nat) : List Nat :=
  ((chunksOf 64 (sha256Pad msg)).foldl sha256Block sha256H0).map (toBytesBE 4) |>.flatten

/-- HMAC-SHA256 (RFC 2104) of a message under a byte-list key. -/
def hmacSha256 (key msg : List Nat) : List Nat :=
  let k0 := if key.length > 64 then sha256 key else key
  let kp := k0 ++ List.replicate (64 - k0.length) 0
  sha256 ((kp.map (fun b => b ^^^ 0x5c)) ++ sha256 ((kp.map (fun b => b ^^^ 0x36)) ++ msg))

/-- The standard Base64 alphabet. -/
def b64Alphabet : List Char := "ABCDEFGHIJKLMNOPQRSTUVWXYZabcdefghijklmnopqrstuvwxyz0123456789+/".data

/-- Character of the standard Base64 alphabet at a 6-bit index. -/
def b64Char (n : Nat) : Char := b64Alphabet.getD n 'A'

/-- Standard Base64 encoding of a byte list, with `=` padding. -/
def base64Go : List Nat → List Char
  | b1 :: b2 :: b3 :: rest =>
    b64Char (b1 >>> 2) :: b64Char (((b1 &&& 3) <<< 4) ||| (b2 >>> 4)) ::
    b64Char (((b2 &&& 15) <<< 2) ||| (b3 >>> 6)) :: b64Char (b3 &&& 63) :: base64Go rest
  | [b1, b2] =>
    [b64Char (b1 >>> 2), b64Char (((b1 &&& 3) <<< 4) ||| (b2 >>> 4)),
     b64Char (((b2 &&& 15) <<< 2)), '=']
  | [b1] =>
    [b64Char (b1 >>> 2), b64Char ((b1 &&& 3) <<< 4), '=', '=']
  | [] => []

/-- Standard Base64 encoding of a byte list as a string. -/
def base64 (bs : List Nat) : String := ⟨base64Go bs⟩

/-- UTF-8 encoding of a single character. -/
def utf8Char (c : Char) : List Nat :=
  let n := c.toNat
  if n < 0x80 then [n]
  else if n < 0x800 then [0xc0 ||| (n >>> 6), 0x80 ||| (n &&& 0x3f)]
  else if n < 0x10000 then
    [0xe0 ||| (n >>> 12), 0x80 ||| ((n >>> 6) &&& 0x3f), 0x80 ||| (n &&& 0x3f)]
  else
    [0xf0 ||| (n >>> 18), 0x80 ||| ((n >>> 12) &&& 0x3f), 0x80 ||| ((n >>> 6) &&& 0x3f),
     0x80 ||| (n &&& 0x3f)]

/-- UTF-8 byte serialization of a string. -/
def strBytes (s : String) : List Nat := (s.data.map utf8Char).flatten

/-- Hexadecimal digit characters. -/
def hexChars : List Char := "0123456789abcdef".data

/-- Lowercase hex rendering of a byte list (for digest test vectors). -/
def bytesToHex (bs : List Nat) : String :=
  ⟨(bs.map (fun b => [hexChars.getD (b >>> 4) '0', hexChars.getD (b &&& 15) '0'])).flatten⟩

mutual

/-- JavaScript values as they occur in request bodies: primitives and plain
objects (an object is a finite ordered field list). `undefined` is
distinguished from `null`, matching JavaScript. -/
inductive JsValue where
  | undefined : JsValue
  | null : JsValue
  | boolean : Bool → JsValue
  | number : Int → JsValue
  | string : String → JsValue
  | object : JsFields → JsValue

/-- Ordered field list of a JavaScript object. -/
inductive JsFields where
  | nil : JsFields
  | cons : String → JsValue → JsFields → JsFields

end

/-- JavaScript truthiness of a value (`if (v)`), as used by the guards
`config.data ? ... : ...` and `amount ? ... : ...` in the source. -/
def jsTruthy : JsValue → Bool
  | .undefined => false
  | .null => false
  | .boolean b => b
  | .number n => n != 0
  | .string s => s != ""
  | .object _ => true

/-- JavaScript string coercion `String(v)` (the `+` operator's conversion):
plain objects stringify to the fixed text `[object Object]`. -/
def jsToString : JsValue → String
  | .undefined => "undefined"
  | .null => "null"
  | .boolean true => "true"
  | .boolean false => "false"
  | .number n => toString n
  | .string s => s
  | .object _ => "[object Object]"

/-- JSON string escaping for one character, as `JSON.stringify` performs it. -/
def jsonEscapeChar (c : Char) : List Char :=
  if c = '"' then ['\\', '"']
  else if c = '\\' then ['\\', '\\']
  else if c = Char.ofNat 8 then ['\\', 'b']
  else if c = Char.ofNat 9 then ['\\', 't']
  else if c = Char.ofNat 10 then ['\\', 'n']
  else if c = Char.ofNat 12 then ['\\', 'f']
  else if c = Char.ofNat 13 then ['\\', 'r']
  else if c.toNat < 32 then
    ['\\', 'u', '0', '0', hexChars.getD (c.toNat >>> 4) '0', hexChars.getD (c.toNat &&& 15) '0']
  else [c]

/-- A JSON string literal: the escaped text between double quotes. -/
def jsonQuote (s : String) : String :=
  ⟨'"' :: (s.data.map jsonEscapeChar).flatten ++ ['"']⟩

/-- Join a list of strings with a separator. -/
def joinSep (sep : String) : List String → String
  | [] => ""
  | [x] => x
  | x :: xs => x ++ sep ++ joinSep sep xs

mutual

/-- `JSON.stringify` on the modelled value sublanguage. `undefined` has no
JSON text (`JSON.stringify` yields the value `undefined` there), hence
`none`; every other modelled value serializes. -/
def jsonStringify : JsValue → Option String
  | .undefined => none
  | .null => some "null"
  | .boolean true => some "true"
  | .boolean false => some "false"
  | .number n => some (toString n)
  | .string s => some (jsonQuote s)
  | .object fs => some ("\x7b" ++ joinSep "," (jsonFieldStrings fs) ++ "\x7d")

/-- Serialized `"key":value` members of an object; fields holding
`undefined` are dropped, as `JSON.stringify` drops them. -/
def jsonFieldStrings : JsFields → List String
  | .nil => []
  | .cons k v rest =>
    match jsonStringify v with
    | none => jsonFieldStrings rest
    | some s => (jsonQuote k ++ ":" ++ s) :: jsonFieldStrings rest

end

/-- JavaScript `s.toUpperCase()` (ASCII range, the only one HTTP method
tokens use). -/
def jsToUpperCase (s : String) : String := ⟨s.data.map Char.toUpper⟩

/-- The body contribution to the canonical signing string in the Node client:
`config.data ? JSON.stringify(config.data) : ""`. A falsy `data` (absent,
`null`, `0`, `false`, empty string) contributes the empty string; a truthy
value contributes its JSON text (always defined for truthy values, so the
`getD` default is never taken). -/
def serializeData (d : JsValue) : String :=
  if jsTruthy d then (jsonStringify d).getD "" else ""

/-- An axios request config as `ttwebclient.mjs` builds it: `method`, `url`,
optional `data` (absent modelled as `undefined`) and a header object. -/
structure Config where
  method : String
  url : String
  data : JsValue
  headers : List (String × String)

/-- Write a key into a JavaScript-object-like header map: overwrite the
entry if the key is present, append it otherwise (the lookup semantics of
the spread `\x7b...config.headers, Authorization: ...\x7d`). -/
def setHeader : List (String × String) → String → String → List (String × String)
  | [], k, v => [(k, v)]
  | (k0, v0) :: rest, k, v =>
    if k0 = k then (k, v) :: rest else (k0, v0) :: setHeader rest k v

/-- Look a key up in a header map. -/
def getHeader : List (String × String) → String → Option String
  | [], _ => none
  | (k0, v0) :: rest, k => if k0 = k then some v0 else getHeader rest k

/-- The canonical signing string of `_signRequest`:
`timestamp + web_api_id + web_api_key + config.method.toUpperCase() +
config.url + (config.data ? JSON.stringify(config.data) : "")`. -/
def canonicalSignature (timestamp : Nat) (web_api_id web_api_key : String) (config : Config) : String :=
  toString timestamp ++ web_api_id ++ web_api_key ++ jsToUpperCase config.method ++
    config.url ++ serializeData config.data

/-- The Authorization header value `_signRequest` attaches:
the scheme token, a space, then colon-joined id, key, timestamp and the
Base64 HMAC-SHA256 of the canonical string keyed by the secret. -/
def authHeaderValue (timestamp : Nat) (web_api_id web_api_key web_api_secret : String)
    (config : Config) : String :=
  "HMAC " ++ web_api_id ++ ":" ++ web_api_key ++ ":" ++ toString timestamp ++ ":" ++
    base64 (hmacSha256 (strBytes web_api_secret)
      (strBytes (canonicalSignature timestamp web_api_id web_api_key config)))

/-- The `_signRequest` function of `ttwebclient.mjs`. JavaScript `!s` on a
string is true exactly for the empty string, and a thrown `Error` is
modelled as `Except.error` carrying the message; `Date.now()` is the
explicit `timestamp` argument. -/
def signRequest (timestamp : Nat) (config : Config)
    (web_api_id web_api_key web_api_secret : String) : Except String Config :=
  if web_api_id = "" then .error "TickTrader Web API Id should be valid!"
  else if web_api_key = "" then .error "TickTrader Web API Key should be valid!"
  else if web_api_secret = "" then .error "TickTrader Web API Secret should be valid!"
  else .ok { config with
    headers := setHeader config.headers "Authorization"
      (authHeaderValue timestamp web_api_id web_api_key web_api_secret config) }

/-- The transport invocations a spy transport would record for a private
operation: `axios(_signRequest(config, ...))` receives the signed config
when signing succeeds; when `_signRequest` throws, `axios` is never
invoked, so the recorded list is empty. -/
def dispatched : Except String Config → List Config
  | .ok cfg => [cfg]
  | .error _ => []

/-- The client instance: base address plus the immutable credential triple. -/
structure TickTraderWebClient where
  web_api_address : String
  web_api_id : String
  web_api_key : String
  web_api_secret : String

/-- Is a character left verbatim by `encodeURIComponent`? Alphanumerics and
the marks minus, underscore, dot, exclamation, tilde, asterisk, apostrophe
and parentheses. -/
def uriUnreservedChar (c : Char) : Bool :=
  let n := c.toNat
  (65 ≤ n && n ≤ 90) || (97 ≤ n && n ≤ 122) || (48 ≤ n && n ≤ 57) ||
    n == 45 || n == 95 || n == 46 || n == 33 || n == 126 || n == 42 ||
    n == 39 || n == 40 || n == 41

/-- Uppercase hexadecimal digit characters. -/
def hexUpperChars : List Char := "0123456789ABCDEF".data

/-- Percent-encoding of one byte, uppercase hex as `encodeURIComponent`
produces it. -/
def percentEncodeByte (b : Nat) : List Char :=
  ['%', hexUpperChars.getD (b >>> 4) '0', hexUpperChars.getD (b &&& 15) '0']

/-- JavaScript `encodeURIComponent`: unreserved characters pass through,
every other character is UTF-8 encoded and each byte percent-escaped. -/
def encodeURIComponent (s : String) : String :=
  ⟨(s.data.map (fun c =>
    if uriUnreservedChar c then [c] else ((utf8Char c).map percentEncodeByte).flatten)).flatten⟩

/-- Public endpoint `getPublicSymbol`: unsigned GET with the symbol
percent-encoded into the path. -/
def getPublicSymbol (c : TickTraderWebClient) (symbol : String) : Config :=
  { method := "GET", url := c.web_api_address ++ "/api/v2/public/symbol/" ++ encodeURIComponent symbol,
    data := JsValue.undefined, headers := [] }

/-- Public endpoint `getPublicCurrency`: unsigned GET with the currency
percent-encoded into the path. -/
def getPublicCurrency (c : TickTraderWebClient) (currency : String) : Config :=
  { method := "GET", url := c.web_api_address ++ "/api/v2/public/currency/" ++ encodeURIComponent currency,
    data := JsValue.undefined, headers := [] }

/-- Public endpoint `getPublicTick`: unsigned GET with the symbol
percent-encoded into the path. -/
def getPublicTick (c : TickTraderWebClient) (symbol : String) : Config :=
  { method := "GET", url := c.web_api_address ++ "/api/v2/public/tick/" ++ encodeURIComponent symbol,
    data := JsValue.undefined, headers := [] }

/-- Public endpoint `getPublicTickLevel2`: unsigned GET with the symbol
percent-encoded into the path. -/
def getPublicTickLevel2 (c : TickTraderWebClient) (symbol : String) : Config :=
  { method := "GET", url := c.web_api_address ++ "/api/v2/public/level2/" ++ encodeURIComponent symbol,
    data := JsValue.undefined, headers := [] }

/-- Private endpoint `getAccount`. -/
def getAccount (c : TickTraderWebClient) (timestamp : Nat) : Except String Config :=
  signRequest timestamp
    { method := "GET", url := c.web_api_address ++ "/api/v2/account",
      data := JsValue.undefined, headers := [] }
    c.web_api_id c.web_api_key c.web_api_secret

/-- Private endpoint `getCurrency`: currency percent-encoded into the path. -/
def getCurrency (c : TickTraderWebClient) (timestamp : Nat) (currency : String) : Except String Config :=
  signRequest timestamp
    { method := "GET", url := c.web_api_address ++ "/api/v2/currency/" ++ encodeURIComponent currency,
      data := JsValue.undefined, headers := [] }
    c.web_api_id c.web_api_key c.web_api_secret

/-- Private endpoint `getSymbol`: symbol percent-encoded into the path. -/
def getSymbol (c : TickTraderWebClient) (timestamp : Nat) (symbol : String) : Except String Config :=
  signRequest timestamp
    { method := "GET", url := c.web_api_address ++ "/api/v2/symbol/" ++ encodeURIComponent symbol,
      data := JsValue.undefined, headers := [] }
    c.web_api_id c.web_api_key c.web_api_secret

/-- Private endpoint `getTick`: symbol percent-encoded into the path. -/
def getTick (c : TickTraderWebClient) (timestamp : Nat) (symbol : String) : Except String Config :=
  signRequest timestamp
    { method := "GET", url := c.web_api_address ++ "/api/v2/tick/" ++ encodeURIComponent symbol,
      data := JsValue.undefined, headers := [] }
    c.web_api_id c.web_api_key c.web_api_secret

/-- Private endpoint `getTickLevel2`: symbol percent-encoded into the path. -/
def getTickLevel2 (c : TickTraderWebClient) (timestamp : Nat) (symbol : String) : Except String Config :=
  signRequest timestamp
    { method := "GET", url := c.web_api_address ++ "/api/v2/level2/" ++ encodeURIComponent symbol,
      data := JsValue.undefined, headers := [] }
    c.web_api_id c.web_api_key c.web_api_secret

/-- Private endpoint `getAsset`: currency percent-encoded into the path. -/
def getAsset (c : TickTraderWebClient) (timestamp : Nat) (currency : String) : Except String Config :=
  signRequest timestamp
    { method := "GET", url := c.web_api_address ++ "/api/v2/asset/" ++ encodeURIComponent currency,
      data := JsValue.undefined, headers := [] }
    c.web_api_id c.web_api_key c.web_api_secret

/-- Private endpoint `getPosition`: symbol percent-encoded into the path. -/
def getPosition (c : TickTraderWebClient) (timestamp : Nat) (symbol : String) : Except String Config :=
  signRequest timestamp
    { method := "GET", url := c.web_api_address ++ "/api/v2/position/" ++ encodeURIComponent symbol,
      data := JsValue.undefined, headers := [] }
    c.web_api_id c.web_api_key c.web_api_secret

/-- Private endpoint `getTrade`: the trade id is concatenated into the path
verbatim, with no `encodeURIComponent` call in the source. -/
def getTrade (c : TickTraderWebClient) (timestamp : Nat) (tradeId : String) : Except String Config :=
  signRequest timestamp
    { method := "GET", url := c.web_api_address ++ "/api/v2/trade/" ++ tradeId,
      data := JsValue.undefined, headers := [] }
    c.web_api_id c.web_api_key c.web_api_secret

/-- Private endpoint `createTrade`: POST with a JSON body and an explicit
Content-Type header. -/
def createTrade (c : TickTraderWebClient) (timestamp : Nat) (request : JsValue) : Except String Config :=
  signRequest timestamp
    { method := "POST", url := c.web_api_address ++ "/api/v2/trade",
      data := request, headers := [("Content-Type", "application/json")] }
    c.web_api_id c.web_api_key c.web_api_secret

/-- Private endpoint `modifyTrade`: PUT with a JSON body and an explicit
Content-Type header. -/
def modifyTrade (c : TickTraderWebClient) (timestamp : Nat) (request : JsValue) : Except String Config :=
  signRequest timestamp
    { method := "PUT", url := c.web_api_address ++ "/api/v2/trade",
      data := request, headers := [("Content-Type", "application/json")] }
    c.web_api_id c.web_api_key c.web_api_secret

/-- Private endpoint `cancelTrade`: DELETE with the trade id in the query. -/
def cancelTrade (c : TickTraderWebClient) (timestamp : Nat) (tradeId : String) : Except String Config :=
  signRequest timestamp
    { method := "DELETE", url := c.web_api_address ++ "/api/v2/trade?type=Cancel&id=" ++ tradeId,
      data := JsValue.undefined, headers := [] }
    c.web_api_id c.web_api_key c.web_api_secret

/-- Private endpoint `closeTrade`. The amount parameter is optional; the
source guards with JavaScript truthiness (`amount ? ... : ...`), so an
absent amount and an amount of `0` both omit the query parameter. -/
def closeTrade (c : TickTraderWebClient) (timestamp : Nat) (tradeId : String)
    (amount : Option Int) : Except String Config :=
  let base := c.web_api_address ++ "/api/v2/trade?type=Close&id=" ++ tradeId
  let url := match amount with
    | some n => if n = 0 then base else base ++ "&amount=" ++ toString n
    | none => base
  signRequest timestamp
    { method := "DELETE", url := url, data := JsValue.undefined, headers := [] }
    c.web_api_id c.web_api_key c.web_api_secret

/-- Private endpoint `closeByTrade`: DELETE with both trade ids in the query. -/
def closeByTrade (c : TickTraderWebClient) (timestamp : Nat) (tradeId byTradeId : String) : Except String Config :=
  signRequest timestamp
    { method := "DELETE",
      url := c.web_api_address ++ "/api/v2/trade?type=CloseBy&id=" ++ tradeId ++ "&byid=" ++ byTradeId,
      data := JsValue.undefined, headers := [] }
    c.web_api_id c.web_api_key c.web_api_secret

/-- Private endpoint `getTradeHistory`: POST with a JSON body. -/
def getTradeHistory (c : TickTraderWebClient) (timestamp : Nat) (request : JsValue) : Except String Config :=
  signRequest timestamp
    { method := "POST", url := c.web_api_address ++ "/api/v2/tradehistory",
      data := request, headers := [("Content-Type", "application/json")] }
    c.web_api_id c.web_api_key c.web_api_secret

/-- Private endpoint `getTradeHistoryByTradeId`: POST with a JSON body; the
trade id is concatenated into the path verbatim, with no
`encodeURIComponent` call in the source. -/
def getTradeHistoryByTradeId (c : TickTraderWebClient) (timestamp : Nat)
    (tradeId : String) (request : JsValue) : Except String Config :=
  signRequest timestamp
    { method := "POST", url := c.web_api_address ++ "/api/v2/tradehistory/" ++ tradeId,
      data := request, headers := [("Content-Type", "application/json")] }
    c.web_api_id c.web_api_key c.web_api_secret

/-- Modelled from the spec: the Node client hands the request config to
axios, whose body serialization is not part of this repository. Per the
spec, the dispatcher "serializes the body as JSON" for requests carrying
one; an absent body sends nothing. -/
def axiosSentBody (d : JsValue) : Option String := jsonStringify d

/-- The body contribution to the signing string in the jQuery variant
(`part_000`): `(context.data || "")` inside a string concatenation, i.e.
the raw data value coerced with JavaScript string coercion when truthy —
a plain object contributes `[object Object]`, not its JSON text. -/
def jqSignedBodyText (d : JsValue) : String :=
  if jsTruthy d then jsToString d else ""

/-- The body the jQuery variant sends: `data ? JSON.stringify(data) :
undefined`. -/
def jqSentBody (d : JsValue) : Option String :=
  if jsTruthy d then jsonStringify d else none

/-- The canonical signing string of the jQuery variant: `timestamp +
web_api_id + web_api_key + context.type + context.url +
(context.data || "")`. Note the method token is used as passed (already
uppercase at every call site) and the body is string-coerced. -/
def jqSignatureString (timestamp : Nat) (web_api_id web_api_key ctxType ctxUrl : String)
    (ctxData : JsValue) : String :=
  toString timestamp ++ web_api_id ++ web_api_key ++ ctxType ++ ctxUrl ++ jqSignedBodyText ctxData

/-- The `signRequest` function of the jQuery variant: one combined
credential check, then the Authorization header value. -/
def jqSignRequest (timestamp : Nat) (web_api_id web_api_key web_api_secret ctxType ctxUrl : String)
    (ctxData : JsValue) : Except String String :=
  if web_api_id = "" ∨ web_api_key = "" ∨ web_api_secret = "" then
    .error "Missing TickTrader Web API credentials."
  else
    .ok ("HMAC " ++ web_api_id ++ ":" ++ web_api_key ++ ":" ++ toString timestamp ++ ":" ++
      base64 (hmacSha256 (strBytes web_api_secret)
        (strBytes (jqSignatureString timestamp web_api_id web_api_key ctxType ctxUrl ctxData))))

/-- The outgoing `$.ajax` request of the jQuery variant: URL, method, the
serialized body it sends, the content type, and the Authorization header
set in `beforeSend`. -/
structure JqAjaxRequest where
  url : String
  type : String
  sentBody : Option String
  contentType : Option String
  authorization : String

/-- The `_authAjax` helper of the jQuery variant: signs the context (raw
`data` value) and sends `JSON.stringify(data)` as the body. -/
def jqAuthAjax (c : TickTraderWebClient) (timestamp : Nat) (url ty : String)
    (data : JsValue) : Except String JqAjaxRequest :=
  match jqSignRequest timestamp c.web_api_id c.web_api_key c.web_api_secret ty url data with
  | .error e => .error e
  | .ok auth => .ok
    { url := url, type := ty,
      sentBody := jqSentBody data,
      contentType := if jsTruthy data then some "application/json; charset=UTF-8" else none,
      authorization := auth }

/-- `createTrade` of the jQuery variant. -/
def jqCreateTrade (c : TickTraderWebClient) (timestamp : Nat) (data : JsValue) : Except String JqAjaxRequest :=
  jqAuthAjax c timestamp (c.web_api_address ++ "/api/v2/trade") "POST" data

/-- `modifyTrade` of the jQuery variant. -/
def jqModifyTrade (c : TickTraderWebClient) (timestamp : Nat) (data : JsValue) : Except String JqAjaxRequest :=
  jqAuthAjax c timestamp (c.web_api_address ++ "/api/v2/trade") "PUT" data

/-- `getTradeHistory` of the jQuery variant. -/
def jqGetTradeHistory (c : TickTraderWebClient) (timestamp : Nat) (data : JsValue) : Except String JqAjaxRequest :=
  jqAuthAjax c timestamp (c.web_api_address ++ "/api/v2/tradehistory") "POST" data

/-- A sample client for concrete witnesses: base `http://x`, id `A`,
key `B`, secret `C`. -/
def sampleClient : TickTraderWebClient :=
  { web_api_address := "http://x", web_api_id := "A", web_api_key := "B", web_api_secret := "C" }

/-- A sample unsigned request config for concrete witnesses. -/
def sampleCfg : Config :=
  { method := "get", url := "http://x/api/v2/account", data := JsValue.undefined, headers := [] }

/-- Strings with equal character lists are equal. -/
theorem strEq_of_data {a b : String} (h : a.data = b.data) : a = b := by
  cases a
  cases b
  exact congrArg String.mk h

/-- String concatenation is associative. -/
theorem strAppend_assoc (a b c : String) : (a ++ b) ++ c = a ++ (b ++ c) := by
  apply strEq_of_data
  simp [String.data_append, List.append_assoc]

/-- Left cancellation for string concatenation. -/
theorem strAppend_left_cancel {a b c : String} (h : a ++ b = a ++ c) : b = c := by
  apply strEq_of_data
  have hd := congrArg String.data h
  simp only [String.data_append] at hd
  exact List.append_cancel_left hd

/-- Right cancellation for string concatenation. -/
theorem strAppend_right_cancel {a b c : String} (h : a ++ c = b ++ c) : a = b := by
  apply strEq_of_data
  have hd := congrArg String.data h
  simp only [String.data_append] at hd
  exact List.append_cancel_right hd

/-- Looking up the key just written into a header map yields the new value. -/
theorem getHeader_setHeader_self (hs : List (String × String)) (k v : String) :
    getHeader (setHeader hs k v) k = some v := by
  induction hs with
  | nil => simp [setHeader, getHeader]
  | cons p rest ih =>
    by_cases h : p.1 = k
    · simp [setHeader, getHeader, h]
    · simp [setHeader, getHeader, h, ih]

/-- Writing one key into a header map leaves every other key's lookup
unchanged. -/
theorem getHeader_setHeader_ne (hs : List (String × String)) (k v k' : String)
    (h : k' ≠ k) : getHeader (setHeader hs k v) k' = getHeader hs k' := by
  have hkk : k ≠ k' := Ne.symm h
  induction hs with
  | nil => simp [setHeader, getHeader, hkk]
  | cons p rest ih =>
    obtain ⟨k0, v0⟩ := p
    by_cases hk0 : k0 = k
    · subst hk0
      simp [setHeader, getHeader, hkk]
    · by_cases hk0' : k0 = k'
      · simp [setHeader, getHeader, hk0, hk0', h]
      · simp [setHeader, getHeader, hk0, hk0', ih]

/-- With all three credentials non-empty, `_signRequest` succeeds and
returns the input config with the Authorization header written. -/
theorem signRequest_ok (ts : Nat) (cfg : Config) (id key secret : String)
    (hid : id ≠ "") (hkey : key ≠ "") (hsec : secret ≠ "") :
    signRequest ts cfg id key secret = Except.ok { cfg with
      headers := setHeader cfg.headers "Authorization" (authHeaderValue ts id key secret cfg) } := by
  simp [signRequest, hid, hkey, hsec]

/-- Canonical strings differ when the uppercased method tokens differ and
the other two contributions agree. -/
theorem canonical_ne_of_method (ts : Nat) (id key : String) (cfg1 cfg2 : Config)
    (hm : jsToUpperCase cfg1.method ≠ jsToUpperCase cfg2.method)
    (hu : cfg1.url = cfg2.url) (hd : serializeData cfg1.data = serializeData cfg2.data) :
    canonicalSignature ts id key cfg1 ≠ canonicalSignature ts id key cfg2 := by
  intro h
  unfold canonicalSignature at h
  rw [hu, hd] at h
  exact hm (strAppend_left_cancel (strAppend_right_cancel (strAppend_right_cancel h)))

/-- Canonical strings differ when the URLs differ and the other two
contributions agree. -/
theorem canonical_ne_of_url (ts : Nat) (id key : String) (cfg1 cfg2 : Config)
    (hu : cfg1.url ≠ cfg2.url)
    (hm : jsToUpperCase cfg1.method = jsToUpperCase cfg2.method)
    (hd : serializeData cfg1.data = serializeData cfg2.data) :
    canonicalSignature ts id key cfg1 ≠ canonicalSignature ts id key cfg2 := by
  intro h
  unfold canonicalSignature at h
  rw [hm, hd] at h
  exact hu (strAppend_left_cancel (strAppend_right_cancel h))

/-- Canonical strings differ when the serialized body texts differ and the
other two contributions agree. -/
theorem canonical_ne_of_body (ts : Nat) (id key : String) (cfg1 cfg2 : Config)
    (hd : serializeData cfg1.data ≠ serializeData cfg2.data)
    (hm : jsToUpperCase cfg1.method = jsToUpperCase cfg2.method)
    (hu : cfg1.url = cfg2.url) :
    canonicalSignature ts id key cfg1 ≠ canonicalSignature ts id key cfg2 := by
  intro h
  unfold canonicalSignature at h
  rw [hm, hu] at h
  exact hd (strAppend_left_cancel h)

/-- FIPS 180-4 test vector: SHA-256 of `abc`. -/
theorem sha256_vector_abc :
    bytesToHex (sha256 (strBytes "abc")) =
      "ba7816bf8f01cfea414140de5dae2223b00361a396177a9cb410ff61f20015ad" := by
  decide

/-- FIPS 180-4 test vector: SHA-256 of the empty message. -/
theorem sha256_vector_empty :
    bytesToHex (sha256 (strBytes "")) =
      "e3b0c44298fc1c149afbf4c8996fb92427ae41e4649b934ca495991b7852b855" := by
  decide

/-- RFC 2104-style test vector: HMAC-SHA256 with key `key` over the
quick-brown-fox sentence. -/
theorem hmac_vector_fox :
    bytesToHex (hmacSha256 (strBytes "key") (strBytes "The quick brown fox jumps over the lazy dog")) =
      "f7bc83f430538424b13298e6aa6fb143ef4d59a14946175997479dbc2d1a3cd8" := by
  decide

/-- RFC 4648 test vectors for standard Base64, including both padding
shapes. -/
theorem base64_vectors :
    base64 (strBytes "Man") = "TWFu" ∧ base64 (strBytes "fo") = "Zm8=" ∧
      base64 (strBytes "f") = "Zg==" ∧ base64 (strBytes "") = "" := by
  refine ⟨?_, ?_, ?_, ?_⟩ <;> decide

/-- C1: for every signing context and every credential triple with
non-empty id, key and secret, `_signRequest` succeeds and attaches the
Authorization header `HMAC id:key:timestamp:signature`, where the
signature is the standard-Base64 HMAC-SHA256, keyed by the secret, of the
separator-free concatenation of the decimal timestamp, the id, the key,
the uppercased method token, the URL, and the JSON body text (empty when
the body is absent). -/
theorem signRequest_authorization_format (ts : Nat) (cfg : Config) (id key secret : String)
    (hid : id ≠ "") (hkey : key ≠ "") (hsec : secret ≠ "") :
    ∃ cfg', signRequest ts cfg id key secret = Except.ok cfg' ∧
      getHeader cfg'.headers "Authorization" =
        some ("HMAC " ++ id ++ ":" ++ key ++ ":" ++ toString ts ++ ":" ++
          base64 (hmacSha256 (strBytes secret)
            (strBytes (toString ts ++ id ++ key ++ jsToUpperCase cfg.method ++ cfg.url ++
              serializeData cfg.data)))) := by
  refine ⟨_, signRequest_ok ts cfg id key secret hid hkey hsec, ?_⟩
  rw [getHeader_setHeader_self]
  rfl

/-- Witness for C1 at a concrete request and credential triple. -/
theorem signRequest_authorization_format_witness :
    ∃ cfg', signRequest 1 sampleCfg "A" "B" "C" = Except.ok cfg' ∧
      getHeader cfg'.headers "Authorization" =
        some ("HMAC " ++ "A" ++ ":" ++ "B" ++ ":" ++ toString 1 ++ ":" ++
          base64 (hmacSha256 (strBytes "C")
            (strBytes (toString 1 ++ "A" ++ "B" ++ jsToUpperCase sampleCfg.method ++
              sampleCfg.url ++ serializeData sampleCfg.data)))) :=
  signRequest_authorization_format 1 sampleCfg "A" "B" "C" (by decide) (by decide) (by decide)

/-- C2: signing fails with a credential error exactly when one of the
three credential strings is empty; in the failing case the transport is
never invoked (the spy records no call). The same gate holds for the
jQuery variant's signer. -/
theorem signRequest_credential_gate (ts : Nat) (cfg : Config) (id key secret ty u2 : String)
    (d : JsValue) :
    ((∃ e, signRequest ts cfg id key secret = Except.error e) ↔
      (id = "" ∨ key = "" ∨ secret = ""))
  ∧ ((id = "" ∨ key = "" ∨ secret = "") → dispatched (signRequest ts cfg id key secret) = [])
  ∧ ((∃ e, jqSignRequest ts id key secret ty u2 d = Except.error e) ↔
      (id = "" ∨ key = "" ∨ secret = "")) := by
  by_cases h1 : id = "" <;> by_cases h2 : key = "" <;> by_cases h3 : secret = "" <;>
    simp [signRequest, jqSignRequest, dispatched, h1, h2, h3]

/-- Witness for C2: an empty id produces a synchronous error and an empty
transport record. -/
theorem signRequest_credential_gate_witness :
    dispatched (signRequest 7 sampleCfg "" "B" "C") = []
  ∧ (∃ e, signRequest 7 sampleCfg "" "B" "C" = Except.error e) :=
  ⟨(signRequest_credential_gate 7 sampleCfg "" "B" "C" "GET" "u" JsValue.undefined).2.1
      (Or.inl rfl),
   (signRequest_credential_gate 7 sampleCfg "" "B" "C" "GET" "u" JsValue.undefined).1.mpr
      (Or.inl rfl)⟩

/-- C3 evaluation: in the jQuery variant, `createTrade` with the body
`\x7b\x7d` sends the JSON text `\x7b\x7d` while the canonical signing
string receives the string coercion `[object Object]` of the raw object —
the two serializations differ. The Node client signs the same JSON text
the transport serializes. -/
theorem jq_body_signed_vs_sent_eval :
    (∃ req, jqCreateTrade sampleClient 1 (JsValue.object JsFields.nil) = Except.ok req ∧
       req.sentBody = some "\x7b\x7d")
  ∧ jqSignedBodyText (JsValue.object JsFields.nil) = "[object Object]"
  ∧ serializeData (JsValue.object JsFields.nil) = "\x7b\x7d"
  ∧ axiosSentBody (JsValue.object JsFields.nil) = some "\x7b\x7d"
  ∧ "[object Object]" ≠ "\x7b\x7d" := by
  refine ⟨⟨_, rfl, ?_⟩, ?_, ?_, ?_, ?_⟩ <;> decide

/-- C4 counterexample: the methods `get` and `GET` are distinct contexts
differing only in the method yet produce equal header values, and the
adversarial pair (method empty, url `GETx`) versus (method `GET`, url `x`)
produces equal canonical signing strings. -/
theorem canonical_collision_counterexample :
    ("get" ≠ "GET")
  ∧ authHeaderValue 1 "A" "B" "C"
        { method := "get", url := "/u", data := JsValue.undefined, headers := [] }
      = authHeaderValue 1 "A" "B" "C"
        { method := "GET", url := "/u", data := JsValue.undefined, headers := [] }
  ∧ canonicalSignature 1 "A" "B"
        { method := "", url := "GETx", data := JsValue.undefined, headers := [] }
      = canonicalSignature 1 "A" "B"
        { method := "GET", url := "x", data := JsValue.undefined, headers := [] } := by
  refine ⟨by decide, ?_, by decide⟩
  have h : canonicalSignature 1 "A" "B"
        { method := "get", url := "/u", data := JsValue.undefined, headers := [] }
      = canonicalSignature 1 "A" "B"
        { method := "GET", url := "/u", data := JsValue.undefined, headers := [] } := by decide
  unfold authHeaderValue
  rw [h]

/-- C4 amended: with timestamp and credentials fixed, contexts whose
uppercased method tokens, URLs, or serialized body texts differ — the
other two contributions agreeing — have different canonical signing
strings; but the no-separator concatenation admits cross-field
collisions: the adversarial pair (method empty, url `GETx`) versus
(method `GET`, url `x`) produces equal signing strings. -/
theorem canonical_component_sensitivity (ts : Nat) (id key : String) (cfg1 cfg2 : Config) :
    (jsToUpperCase cfg1.method ≠ jsToUpperCase cfg2.method → cfg1.url = cfg2.url →
       serializeData cfg1.data = serializeData cfg2.data →
       canonicalSignature ts id key cfg1 ≠ canonicalSignature ts id key cfg2)
  ∧ (cfg1.url ≠ cfg2.url → jsToUpperCase cfg1.method = jsToUpperCase cfg2.method →
       serializeData cfg1.data = serializeData cfg2.data →
       canonicalSignature ts id key cfg1 ≠ canonicalSignature ts id key cfg2)
  ∧ (serializeData cfg1.data ≠ serializeData cfg2.data →
       jsToUpperCase cfg1.method = jsToUpperCase cfg2.method → cfg1.url = cfg2.url →
       canonicalSignature ts id key cfg1 ≠ canonicalSignature ts id key cfg2)
  ∧ canonicalSignature 1 "A" "B"
        { method := "", url := "GETx", data := JsValue.undefined, headers := [] }
      = canonicalSignature 1 "A" "B"
        { method := "GET", url := "x", data := JsValue.undefined, headers := [] } :=
  ⟨fun hm hu hd => canonical_ne_of_method ts id key cfg1 cfg2 hm hu hd,
   fun hu hm hd => canonical_ne_of_url ts id key cfg1 cfg2 hu hm hd,
   fun hd hm hu => canonical_ne_of_body ts id key cfg1 cfg2 hd hm hu,
   by decide⟩

/-- Witness for C4: two contexts differing only in the URL sign
differently. -/
theorem canonical_component_sensitivity_witness :
    canonicalSignature 1 "A" "B"
        { method := "GET", url := "/u1", data := JsValue.undefined, headers := [] }
      ≠ canonicalSignature 1 "A" "B"
        { method := "GET", url := "/u2", data := JsValue.undefined, headers := [] } :=
  (canonical_component_sensitivity 1 "A" "B" _ _).2.1 (by decide) (by decide) (by decide)

/-- C5: an absent body contributes the empty string to the canonical
signing string (so does a falsy `null` body — never the text `null`),
while an empty-object body contributes its JSON text `\x7b\x7d`, so the
two sign differently for every timestamp, credentials, method and URL. -/
theorem body_absent_vs_empty_object (ts : Nat) (id key method url : String) :
    serializeData JsValue.undefined = ""
  ∧ serializeData JsValue.null = ""
  ∧ serializeData (JsValue.object JsFields.nil) = "\x7b\x7d"
  ∧ canonicalSignature ts id key
        { method := method, url := url, data := JsValue.undefined, headers := [] }
      ≠ canonicalSignature ts id key
        { method := method, url := url, data := JsValue.object JsFields.nil, headers := [] } := by
  refine ⟨rfl, rfl, by decide, ?_⟩
  exact canonical_ne_of_body ts id key
    { method := method, url := url, data := JsValue.undefined, headers := [] }
    { method := method, url := url, data := JsValue.object JsFields.nil, headers := [] }
    (show ("" : String) ≠ "\x7b\x7d" by decide) rfl rfl

/-- C6 amended: symbol and currency path parameters are percent-encoded
via `encodeURIComponent` before concatenation, public and private alike —
the symbol, currency, asset, position and tick (top-of-book and level-2)
operations — and `EUR/USD` encodes to `EUR%2FUSD`; trade identifiers,
however, are concatenated into the path verbatim in `getTrade` and
`getTradeHistoryByTradeId`. -/
theorem path_param_encoding (c : TickTraderWebClient) (ts : Nat) (s cur tid : String)
    (req : JsValue)
    (hid : c.web_api_id ≠ "") (hkey : c.web_api_key ≠ "") (hsec : c.web_api_secret ≠ "") :
    (getPublicSymbol c s).url = c.web_api_address ++ "/api/v2/public/symbol/" ++ encodeURIComponent s
  ∧ (getPublicCurrency c cur).url = c.web_api_address ++ "/api/v2/public/currency/" ++ encodeURIComponent cur
  ∧ (getPublicTick c s).url = c.web_api_address ++ "/api/v2/public/tick/" ++ encodeURIComponent s
  ∧ (getPublicTickLevel2 c s).url = c.web_api_address ++ "/api/v2/public/level2/" ++ encodeURIComponent s
  ∧ (∃ cfg, getSymbol c ts s = Except.ok cfg
      ∧ cfg.url = c.web_api_address ++ "/api/v2/symbol/" ++ encodeURIComponent s)
  ∧ (∃ cfg, getCurrency c ts cur = Except.ok cfg
      ∧ cfg.url = c.web_api_address ++ "/api/v2/currency/" ++ encodeURIComponent cur)
  ∧ (∃ cfg, getTick c ts s = Except.ok cfg
      ∧ cfg.url = c.web_api_address ++ "/api/v2/tick/" ++ encodeURIComponent s)
  ∧ (∃ cfg, getTickLevel2 c ts s = Except.ok cfg
      ∧ cfg.url = c.web_api_address ++ "/api/v2/level2/" ++ encodeURIComponent s)
  ∧ (∃ cfg, getAsset c ts cur = Except.ok cfg
      ∧ cfg.url = c.web_api_address ++ "/api/v2/asset/" ++ encodeURIComponent cur)
  ∧ (∃ cfg, getPosition c ts s = Except.ok cfg
      ∧ cfg.url = c.web_api_address ++ "/api/v2/position/" ++ encodeURIComponent s)
  ∧ (∃ cfg, getTrade c ts tid = Except.ok cfg
      ∧ cfg.url = c.web_api_address ++ "/api/v2/trade/" ++ tid)
  ∧ (∃ cfg, getTradeHistoryByTradeId c ts tid req = Except.ok cfg
      ∧ cfg.url = c.web_api_address ++ "/api/v2/tradehistory/" ++ tid)
  ∧ encodeURIComponent "EUR/USD" = "EUR%2FUSD" := by
  refine ⟨rfl, rfl, rfl, rfl,
    ⟨_, signRequest_ok ts _ _ _ _ hid hkey hsec, rfl⟩,
    ⟨_, signRequest_ok ts _ _ _ _ hid hkey hsec, rfl⟩,
    ⟨_, signRequest_ok ts _ _ _ _ hid hkey hsec, rfl⟩,
    ⟨_, signRequest_ok ts _ _ _ _ hid hkey hsec, rfl⟩,
    ⟨_, signRequest_ok ts _ _ _ _ hid hkey hsec, rfl⟩,
    ⟨_, signRequest_ok ts _ _ _ _ hid hkey hsec, rfl⟩,
    ⟨_, signRequest_ok ts _ _ _ _ hid hkey hsec, rfl⟩,
    ⟨_, signRequest_ok ts _ _ _ _ hid hkey hsec, rfl⟩,
    by decide⟩

/-- Witness for C6 at the concrete client: the spec's `EUR/USD` example
and an unencoded trade id. -/
theorem path_param_encoding_witness :
    (getPublicSymbol sampleClient "EUR/USD").url =
      "http://x" ++ "/api/v2/public/symbol/" ++ "EUR%2FUSD"
  ∧ (∃ cfg, getTrade sampleClient 1 "T1" = Except.ok cfg
      ∧ cfg.url = "http://x" ++ "/api/v2/trade/" ++ "T1") := by
  obtain ⟨h1, h2, h3, h4, h5, h6, h7, h8, h9, h10, h11, h12, h13⟩ :=
    path_param_encoding sampleClient 1 "EUR/USD" "USD" "T1" JsValue.undefined
      (by decide) (by decide) (by decide)
  exact ⟨h1.trans (by rw [h13]; rfl), h11⟩

/-- C6 counterexample: `getTrade` does not percent-encode the trade id: a
slash inside the id survives verbatim in the path. -/
theorem tradeId_not_encoded_counterexample :
    ∃ cfg, getTrade sampleClient 1 "a/b" = Except.ok cfg
      ∧ cfg.url = "http://x/api/v2/trade/a/b"
      ∧ cfg.url ≠ "http://x" ++ "/api/v2/trade/" ++ encodeURIComponent "a/b" := by
  refine ⟨_, signRequest_ok 1 _ "A" "B" "C" (by decide) (by decide) (by decide), ?_, ?_⟩ <;> decide

/-- C7: `closeTrade` without an amount signs and sends a DELETE to
`.../api/v2/trade?type=Close&id=tid` with no amount parameter, and with
amount 5 the same URL with `&amount=5` appended. -/
theorem closeTrade_amount_urls (c : TickTraderWebClient) (ts : Nat) (tid : String)
    (hid : c.web_api_id ≠ "") (hkey : c.web_api_key ≠ "") (hsec : c.web_api_secret ≠ "") :
    (∃ cfg, closeTrade c ts tid none = Except.ok cfg ∧ cfg.method = "DELETE"
      ∧ cfg.url = c.web_api_address ++ "/api/v2/trade?type=Close&id=" ++ tid)
  ∧ (∃ cfg, closeTrade c ts "T123" (some 5) = Except.ok cfg ∧ cfg.method = "DELETE"
      ∧ cfg.url = c.web_api_address ++ "/api/v2/trade?type=Close&id=" ++ "T123" ++ "&amount=" ++ "5") := by
  constructor
  · exact ⟨_, signRequest_ok ts _ _ _ _ hid hkey hsec, rfl, rfl⟩
  · refine ⟨_, signRequest_ok ts _ _ _ _ hid hkey hsec, rfl, ?_⟩
    show c.web_api_address ++ "/api/v2/trade?type=Close&id=" ++ "T123" ++ "&amount=" ++
        toString (5 : Int)
      = c.web_api_address ++ "/api/v2/trade?type=Close&id=" ++ "T123" ++ "&amount=" ++ "5"
    rw [show toString (5 : Int) = "5" from by decide]

/-- Witness for C7 at the concrete client. -/
theorem closeTrade_amount_urls_witness :
    (∃ cfg, closeTrade sampleClient 9 "T9" none = Except.ok cfg ∧ cfg.method = "DELETE"
      ∧ cfg.url = sampleClient.web_api_address ++ "/api/v2/trade?type=Close&id=" ++ "T9")
  ∧ (∃ cfg, closeTrade sampleClient 9 "T123" (some 5) = Except.ok cfg ∧ cfg.method = "DELETE"
      ∧ cfg.url = sampleClient.web_api_address ++ "/api/v2/trade?type=Close&id=" ++ "T123" ++
          "&amount=" ++ "5") :=
  closeTrade_amount_urls sampleClient 9 "T9" (by decide) (by decide) (by decide)

/-- C8: with timestamp fixed and valid credentials, signing is a function
of method, URL, body and credentials — two requests agreeing on those
(whatever their pre-existing headers) receive identical Authorization
header values. -/
theorem signer_deterministic (ts : Nat) (cfg1 cfg2 : Config) (id key secret : String)
    (hm : cfg1.method = cfg2.method) (hu : cfg1.url = cfg2.url) (hd : cfg1.data = cfg2.data)
    (hid : id ≠ "") (hkey : key ≠ "") (hsec : secret ≠ "") :
    ∃ c1 c2, signRequest ts cfg1 id key secret = Except.ok c1
      ∧ signRequest ts cfg2 id key secret = Except.ok c2
      ∧ getHeader c1.headers "Authorization" = getHeader c2.headers "Authorization" := by
  refine ⟨_, _, signRequest_ok ts cfg1 id key secret hid hkey hsec,
    signRequest_ok ts cfg2 id key secret hid hkey hsec, ?_⟩
  rw [getHeader_setHeader_self, getHeader_setHeader_self]
  have hc : canonicalSignature ts id key cfg1 = canonicalSignature ts id key cfg2 := by
    unfold canonicalSignature
    rw [hm, hu, hd]
  unfold authHeaderValue
  rw [hc]

/-- Witness for C8: identical request fields under different pre-existing
headers receive the same Authorization value. -/
theorem signer_deterministic_witness :
    ∃ c1 c2, signRequest 1
        { method := "GET", url := "http://x/u", data := JsValue.undefined, headers := [] }
        "A" "B" "C" = Except.ok c1
      ∧ signRequest 1
        { method := "GET", url := "http://x/u", data := JsValue.undefined,
          headers := [("X-Trace", "t")] } "A" "B" "C" = Except.ok c2
      ∧ getHeader c1.headers "Authorization" = getHeader c2.headers "Authorization" :=
  signer_deterministic 1 _ _ "A" "B" "C" rfl rfl rfl (by decide) (by decide) (by decide)

/-- C9: an explicit amount of zero is falsy under the source's
`amount ? ... : ...` guard, so `closeTrade(tid, 0)` builds exactly the
request of `closeTrade(tid)` with the amount parameter omitted. -/
theorem closeTrade_zero_amount_omitted (c : TickTraderWebClient) (ts : Nat) (tid : String) :
    closeTrade c ts tid (some 0) = closeTrade c ts tid none := rfl

/-- C10 amended: signing preserves method, URL and data, preserves every
header entry whose name is not `Authorization`, and writes the
Authorization entry — overwriting a pre-existing one. -/
theorem signRequest_frame (ts : Nat) (cfg : Config) (id key secret : String)
    (hid : id ≠ "") (hkey : key ≠ "") (hsec : secret ≠ "") :
    ∃ cfg', signRequest ts cfg id key secret = Except.ok cfg'
      ∧ cfg'.method = cfg.method ∧ cfg'.url = cfg.url ∧ cfg'.data = cfg.data
      ∧ (∀ k, k ≠ "Authorization" → getHeader cfg'.headers k = getHeader cfg.headers k)
      ∧ getHeader cfg'.headers "Authorization" = some (authHeaderValue ts id key secret cfg) := by
  refine ⟨_, signRequest_ok ts cfg id key secret hid hkey hsec, rfl, rfl, rfl, ?_, ?_⟩
  · exact fun k hk => getHeader_setHeader_ne cfg.headers "Authorization" _ k hk
  · exact getHeader_setHeader_self cfg.headers "Authorization" _

/-- Witness for C10: the Content-Type header set by `createTrade` survives
signing. -/
theorem signRequest_frame_witness :
    ∃ cfg', signRequest 1
        { method := "POST", url := "http://x/api/v2/trade", data := JsValue.object JsFields.nil,
          headers := [("Content-Type", "application/json")] } "A" "B" "C" = Except.ok cfg'
      ∧ cfg'.method = "POST"
      ∧ getHeader cfg'.headers "Content-Type" = some "application/json" := by
  obtain ⟨cfg', h1, hm, hu, hd, hk, ha⟩ := signRequest_frame 1
    { method := "POST", url := "http://x/api/v2/trade", data := JsValue.object JsFields.nil,
      headers := [("Content-Type", "application/json")] } "A" "B" "C"
    (by decide) (by decide) (by decide)
  exact ⟨cfg', h1, hm, (hk "Content-Type" (by decide)).trans rfl⟩

/-- C10 counterexample: a pre-existing Authorization header entry does not
survive signing unchanged — it is overwritten with the computed value. -/
theorem authorization_overwritten_counterexample :
    ∃ cfg', signRequest 1
        { method := "GET", url := "http://x/u", data := JsValue.undefined,
          headers := [("Authorization", "X")] } "A" "B" "C" = Except.ok cfg'
      ∧ getHeader cfg'.headers "Authorization" ≠ some "X" := by
  refine ⟨_, signRequest_ok 1 _ "A" "B" "C" (by decide) (by decide) (by decide), ?_⟩
  decide

end TTWebClient
